import Mathlib

/-!
Verification of the rate-limiting engine, progressive login delay, and
password-reset token lifecycle of a credential-based authentication backend
(Next.js auth starter).

The definitions below are a shallow embedding of the TypeScript sources:
* `src/lib/rate-limit.ts` (rate-limit stores, `checkRateLimit`,
  `updateRateLimit`, `calculateProgressiveDelay`, `checkLoginDelay`,
  `recordFailedLogin`, `clearFailedLogins`, middleware, `rateLimitConfigs`);
* `src/lib/password.ts` (`validatePasswordStrength`);
* the API route handlers `register`, `login`, `forgot-password`,
  `reset-password` under `src/app/api/auth/`.

JavaScript numbers appearing here are integer-valued throughout
(millisecond timestamps, counters), so they are embedded as `Int`.
The in-memory keyed stores (plain JS objects indexed by client identity)
are embedded as functions `String → Option α`.  External collaborators
(bcrypt hashing/comparison, the zod e-mail format validator, random token
generation, Prisma id generation) are passed in as parameters, exactly as
the spec treats them as external.
-/

namespace AuthStarter

/-- Keyed in-memory store: a JS object used as a dictionary. -/
def Store (α : Type) : Type := String → Option α

/-- Read a key from a store (JS `store[key]`). -/
def storeGet {α : Type} (s : Store α) (k : String) : Option α := s k

/-- Assign a key in a store (JS `store[key] = v`). -/
def storeSet {α : Type} (s : Store α) (k : String) (v : α) : Store α :=
  fun k' => if k' = k then some v else s k'

/-- Remove a key from a store (JS `delete store[key]`). -/
def storeDel {α : Type} (s : Store α) (k : String) : Store α :=
  fun k' => if k' = k then none else s k'

/-- Rate limiting configuration (`RateLimitConfig` in rate-limit.ts).
The optional `keyGenerator` is not modelled: all call sites in the
repository use the default IP-based key, which is the `key` argument of
the functions below. -/
structure RateLimitConfig where
  windowMs : Int
  maxAttempts : Int
  skipSuccessfulRequests : Bool := false
  skipFailedRequests : Bool := false
  deriving Repr, DecidableEq

/-- Rate limit entry (`RateLimitEntry` in rate-limit.ts). -/
structure RateLimitEntry where
  count : Int
  resetAt : Int
  failedAttempts : Int
  lastFailedAt : Option Int := none
  deriving Repr, DecidableEq

/-- Failed-login entry of the progressive-delay store in rate-limit.ts. -/
structure FailedLoginEntry where
  attempts : Int
  lastAttempt : Int
  nextAllowedAt : Int
  deriving Repr, DecidableEq

/-- Result record of `checkRateLimit`. -/
structure RateLimitResult where
  isLimited : Bool
  remaining : Int
  resetAt : Int
  deriving Repr, DecidableEq

/-- Result record of `checkLoginDelay`. -/
structure LoginDelayResult where
  isDelayed : Bool
  delayMs : Int
  nextAllowedAt : Int
  deriving Repr, DecidableEq

/-- Function `cleanupExpiredEntries` from rate-limit.ts: deletes rate-limit entries
with `now > resetAt` and failed-login entries idle for more than 24 hours. -/
def cleanupExpiredEntries (now : Int)
    (rls : Store RateLimitEntry) (fls : Store FailedLoginEntry) :
    Store RateLimitEntry × Store FailedLoginEntry :=
  (fun k =>
     match rls k with
     | some e => if now > e.resetAt then none else some e
     | none => none,
   fun k =>
     match fls k with
     | some e => if now - e.lastAttempt > 24 * 60 * 60 * 1000 then none else some e
     | none => none)

/-- Function `checkRateLimit` from rate-limit.ts.  `key` is the client identity
produced by the (default) key generator; `now` is `Date.now()`.  Returns
the result together with both stores after the opportunistic cleanup and
the lazy entry (re)initialization. -/
def checkRateLimit (key : String) (config : RateLimitConfig) (now : Int)
    (rls : Store RateLimitEntry) (fls : Store FailedLoginEntry) :
    RateLimitResult × Store RateLimitEntry × Store FailedLoginEntry :=
  let cleaned := cleanupExpiredEntries now rls fls
  let rls1 := cleaned.1
  let fls1 := cleaned.2
  match storeGet rls1 key with
  | some e =>
    if now > e.resetAt then
      let fresh : RateLimitEntry :=
        { count := 0, resetAt := now + config.windowMs, failedAttempts := 0 }
      ({ isLimited := decide (fresh.count ≥ config.maxAttempts),
         remaining := max 0 (config.maxAttempts - fresh.count),
         resetAt := fresh.resetAt },
       storeSet rls1 key fresh, fls1)
    else
      ({ isLimited := decide (e.count ≥ config.maxAttempts),
         remaining := max 0 (config.maxAttempts - e.count),
         resetAt := e.resetAt },
       rls1, fls1)
  | none =>
    let fresh : RateLimitEntry :=
      { count := 0, resetAt := now + config.windowMs, failedAttempts := 0 }
    ({ isLimited := decide (fresh.count ≥ config.maxAttempts),
       remaining := max 0 (config.maxAttempts - fresh.count),
       resetAt := fresh.resetAt },
     storeSet rls1 key fresh, fls1)

/-- Function `updateRateLimit` from rate-limit.ts.  `now` is the `Date.now()`
stamped into `lastFailedAt` on failure. -/
def updateRateLimit (key : String) (config : RateLimitConfig)
    (success : Bool) (now : Int) (rls : Store RateLimitEntry) :
    Store RateLimitEntry :=
  match storeGet rls key with
  | none => rls
  | some e =>
    let shouldCount :=
      if success then !config.skipSuccessfulRequests else !config.skipFailedRequests
    let e1 := if shouldCount then { e with count := e.count + 1 } else e
    let e2 :=
      if !success then
        { e1 with failedAttempts := e1.failedAttempts + 1, lastFailedAt := some now }
      else e1
    storeSet rls key e2

/-- Function `calculateProgressiveDelay` from rate-limit.ts. -/
def calculateProgressiveDelay (attempts : Int) : Int :=
  if attempts ≤ 0 then 0
  else if attempts ≤ 5 then 2 ^ (attempts - 1).toNat * 1000
  else 30 * 1000

/-- Function `checkLoginDelay` from rate-limit.ts. -/
def checkLoginDelay (key : String) (now : Int)
    (rls : Store RateLimitEntry) (fls : Store FailedLoginEntry) :
    LoginDelayResult × Store RateLimitEntry × Store FailedLoginEntry :=
  let cleaned := cleanupExpiredEntries now rls fls
  let rls1 := cleaned.1
  let fls1 := cleaned.2
  match storeGet fls1 key with
  | none => ({ isDelayed := false, delayMs := 0, nextAllowedAt := now }, rls1, fls1)
  | some e =>
    if now < e.nextAllowedAt then
      ({ isDelayed := true, delayMs := e.nextAllowedAt - now,
         nextAllowedAt := e.nextAllowedAt }, rls1, fls1)
    else
      ({ isDelayed := false, delayMs := 0, nextAllowedAt := now }, rls1, fls1)

/-- Function `recordFailedLogin` from rate-limit.ts. -/
def recordFailedLogin (key : String) (now : Int)
    (fls : Store FailedLoginEntry) : Store FailedLoginEntry :=
  let entry0 : FailedLoginEntry :=
    match storeGet fls key with
    | none => { attempts := 0, lastAttempt := now, nextAllowedAt := now }
    | some e => e
  let entry1 :=
    if now - entry0.lastAttempt > 60 * 60 * 1000 then { entry0 with attempts := 0 }
    else entry0
  let entry2 := { entry1 with attempts := entry1.attempts + 1, lastAttempt := now }
  let entry3 :=
    { entry2 with nextAllowedAt := now + calculateProgressiveDelay entry2.attempts }
  storeSet fls key entry3

/-- Function `clearFailedLogins` from rate-limit.ts. -/
def clearFailedLogins (key : String) (fls : Store FailedLoginEntry) :
    Store FailedLoginEntry :=
  storeDel fls key

/-- Predefined rate limit configurations (`rateLimitConfigs` in
rate-limit.ts): general auth endpoints (registration). -/
def rateLimitConfigs.auth : RateLimitConfig :=
  { windowMs := 60 * 60 * 1000, maxAttempts := 5, skipSuccessfulRequests := true }

/-- Predefined login configuration. -/
def rateLimitConfigs.login : RateLimitConfig :=
  { windowMs := 15 * 60 * 1000, maxAttempts := 5, skipSuccessfulRequests := true }

/-- Predefined password-reset configuration. -/
def rateLimitConfigs.passwordReset : RateLimitConfig :=
  { windowMs := 60 * 60 * 1000, maxAttempts := 3, skipSuccessfulRequests := true }

/-- Ceiling of the real quotient `a / b` for `b > 0`
(JS `Math.ceil(a / b)` at integer arguments). -/
def ceilDiv (a b : Int) : Int := -((-a).fdiv b)

/-- Password strength validation error (`PasswordValidationError` in
password.ts). -/
structure PasswordValidationError where
  code : String
  message : String
  deriving Repr, DecidableEq

/-- JS regex class `[A-Z]` membership. -/
def isUpperAZ (c : Char) : Bool := decide ('A' ≤ c) && decide (c ≤ 'Z')

/-- JS regex class `[a-z]` membership. -/
def isLowerAZ (c : Char) : Bool := decide ('a' ≤ c) && decide (c ≤ 'z')

/-- JS regex class `[0-9]` membership. -/
def isDigit09 (c : Char) : Bool := decide ('0' ≤ c) && decide (c ≤ '9')

/-- Function `validatePasswordStrength` from password.ts, with
`PASSWORD_REQUIREMENTS = { minLength: 8, requireUppercase: true,
requireLowercase: true, requireNumbers: true, requireSpecialChars: true }`. -/
def validatePasswordStrength (password : String) : List PasswordValidationError :=
  (if password.length < 8 then
     [{ code := "password.length",
        message := "Password must be at least 8 characters long" }]
   else []) ++
  (if !password.data.any isUpperAZ then
     [{ code := "password.uppercase",
        message := "Password must contain at least one uppercase letter" }]
   else []) ++
  (if !password.data.any isLowerAZ then
     [{ code := "password.lowercase",
        message := "Password must contain at least one lowercase letter" }]
   else []) ++
  (if !password.data.any isDigit09 then
     [{ code := "password.number",
        message := "Password must contain at least one number" }]
   else []) ++
  (if !password.data.any (fun c => !(isUpperAZ c || isLowerAZ c || isDigit09 c)) then
     [{ code := "password.special",
        message := "Password must contain at least one special character" }]
   else [])

/-- User row of the Prisma `User` table (the fields the auth routes read
or write). -/
structure User where
  id : String
  name : String
  email : String
  password : String
  image : Option String := none
  emailVerified : Option Int := none
  createdAt : Int := 0
  updatedAt : Int := 0
  deriving Repr, DecidableEq

/-- Row of the Prisma `VerificationToken` table. -/
structure VerificationToken where
  identifier : String
  token : String
  expires : Int
  deriving Repr, DecidableEq

/-- The persisted database state the auth routes touch. -/
structure Db where
  users : List User
  tokens : List VerificationToken
  deriving Repr, DecidableEq

/-- Function `prisma.user.findUnique({ where: { email } })`. -/
def findUserByEmail (db : Db) (email : String) : Option User :=
  db.users.find? (fun u => u.email = email)

/-- Function `prisma.user.findUnique({ where: { id } })`. -/
def findUserById (db : Db) (id : String) : Option User :=
  db.users.find? (fun u => u.id = id)

/-- Function `prisma.verificationToken.findUnique({ where: { token } })`. -/
def findToken (db : Db) (token : String) : Option VerificationToken :=
  db.tokens.find? (fun vt => vt.token = token)

/-- Function `prisma.verificationToken.delete({ where: { token } })`. -/
def deleteToken (db : Db) (token : String) : Db :=
  { db with tokens := db.tokens.filter (fun vt => vt.token ≠ token) }

/-- Function `prisma.verificationToken.create({ data })`. -/
def createToken (db : Db) (vt : VerificationToken) : Db :=
  { db with tokens := vt :: db.tokens }

/-- Function `prisma.user.update({ where: { id }, data: { password, updatedAt } })`. -/
def updateUserPassword (db : Db) (id hashed : String) (now : Int) : Db :=
  { db with users := db.users.map (fun u =>
      if u.id = id then { u with password := hashed, updatedAt := now } else u) }

/-- Function `prisma.user.create` in the register route (Prisma fills `id` and
`createdAt`; the generated id is the `freshId` parameter of the handler). -/
def createUser (db : Db) (u : User) : Db :=
  { db with users := u :: db.users }

/-- Mail sent by `sendPasswordResetEmail` in the forgot-password route
(the fields the spec constrains: recipient, subject, embedded token). -/
structure SentEmail where
  toAddr : String
  subject : String
  token : String
  deriving Repr, DecidableEq

/-- User projection returned by the register route
(`select: id, name, email, createdAt`). -/
structure RegisteredUserView where
  id : String
  name : String
  email : String
  createdAt : Int
  deriving Repr, DecidableEq

/-- User projection returned by the login route. -/
structure LoginUserView where
  id : String
  name : String
  email : String
  image : Option String
  emailVerified : Option Int
  deriving Repr, DecidableEq

/-- JSON body shapes produced by the auth route handlers. -/
inductive ResponseBody where
  | message (m : String)
  | registered (m : String) (u : RegisteredUserView)
  | loginOk (m : String) (u : LoginUserView)
  | error (m : String)
  | errorDetails (m : String) (details : List String)
  | errorRate (m : String) (code : String) (retryAfter : Int)
  deriving Repr, DecidableEq

/-- An HTTP response of a route handler: status code plus JSON body. -/
structure ApiResponse where
  status : Int
  body : ResponseBody
  deriving Repr, DecidableEq

/-- The whole mutable state a request acts on: database, the two
in-memory rate-limit stores, and the log of sent mails. -/
structure AppState where
  db : Db
  rls : Store RateLimitEntry
  fls : Store FailedLoginEntry
  mails : List SentEmail

/-- Function `createRateLimitMiddleware(config)` applied to a request: returns the
429 response when limited (`none` = pass through) together with the
stores after the embedded `checkRateLimit`. -/
def rateLimitMiddleware (config : RateLimitConfig) (key : String) (now : Int)
    (rls : Store RateLimitEntry) (fls : Store FailedLoginEntry) :
    Option ApiResponse × Store RateLimitEntry × Store FailedLoginEntry :=
  let c := checkRateLimit key config now rls fls
  if c.1.isLimited then
    (some { status := 429,
            body := .errorRate "Too many requests. Please try again later."
              "RATE_LIMIT_EXCEEDED" (ceilDiv (c.1.resetAt - now) 1000) },
     c.2.1, c.2.2)
  else
    (none, c.2.1, c.2.2)

/-- Function `createLoginDelayMiddleware()` applied to a request. -/
def loginDelayMiddleware (key : String) (now : Int)
    (rls : Store RateLimitEntry) (fls : Store FailedLoginEntry) :
    Option ApiResponse × Store RateLimitEntry × Store FailedLoginEntry :=
  let c := checkLoginDelay key now rls fls
  if c.1.isDelayed then
    (some { status := 429,
            body := .errorRate "Too many failed login attempts. Please try again later."
              "LOGIN_DELAY" (ceilDiv c.1.delayMs 1000) },
     c.2.1, c.2.2)
  else
    (none, c.2.1, c.2.2)

/-- Body of a registration request (`registerSchema` fields). -/
structure RegisterBody where
  name : String
  email : String
  password : String
  deriving Repr, DecidableEq

/-- Zod `registerSchema` checks: name min 2, valid email, password min 8.
`emailValid` is zod's e-mail format validator (external library code). -/
def registerSchemaErrors (emailValid : String → Bool) (b : RegisterBody) :
    List String :=
  (if b.name.length < 2 then ["Name must be at least 2 characters"] else []) ++
  (if !emailValid b.email then ["Invalid email address"] else []) ++
  (if b.password.length < 8 then ["Password must be at least 8 characters"] else [])

/-- Body of a login request (`loginSchema` fields; the optional
`callbackUrl` is never read by the handler and is omitted). -/
structure LoginBody where
  email : String
  password : String
  deriving Repr, DecidableEq

/-- Zod `loginSchema` checks: valid email, password min 1. -/
def loginSchemaErrors (emailValid : String → Bool) (b : LoginBody) : List String :=
  (if !emailValid b.email then ["Invalid email address"] else []) ++
  (if b.password.length < 1 then ["Password is required"] else [])

/-- Body of a forgot-password request (`forgotPasswordSchema` fields). -/
structure ForgotPasswordBody where
  email : String
  deriving Repr, DecidableEq

/-- Zod `forgotPasswordSchema` checks: valid email. -/
def forgotSchemaErrors (emailValid : String → Bool) (b : ForgotPasswordBody) :
    List String :=
  if !emailValid b.email then ["Invalid email address"] else []

/-- Body of a reset-password request (`resetPasswordSchema` fields). -/
structure ResetPasswordBody where
  token : String
  password : String
  confirmPassword : String
  deriving Repr, DecidableEq

/-- Zod `resetPasswordSchema` checks: token min 1, password min 8,
confirmPassword min 8, and the `.refine` equality of the two passwords
(run by zod only when the base checks pass). -/
def resetSchemaErrors (b : ResetPasswordBody) : List String :=
  let base :=
    (if b.token.length < 1 then ["Token is required"] else []) ++
    (if b.password.length < 8 then ["Password must be at least 8 characters"] else []) ++
    (if b.confirmPassword.length < 8 then
       ["Confirm password must be at least 8 characters"] else [])
  base ++
    (if base = [] ∧ b.password ≠ b.confirmPassword then ["Passwords do not match"]
     else [])

/-- POST handler of `src/app/api/auth/register/route.ts`.
`hash` is bcrypt hashing, `freshId` the id Prisma generates for the new
row, `ip` the client identity of the request, `now` the request time. -/
def registerPOST (emailValid : String → Bool) (hash : String → String)
    (freshId : String) (ip : String) (b : RegisterBody) (now : Int)
    (s : AppState) : ApiResponse × AppState :=
  let gate := rateLimitMiddleware rateLimitConfigs.auth ip now s.rls s.fls
  let s1 : AppState := { s with rls := gate.2.1, fls := gate.2.2 }
  match gate.1 with
  | some resp => (resp, s1)
  | none =>
    let schemaErrors := registerSchemaErrors emailValid b
    if schemaErrors ≠ [] then
      ({ status := 400, body := .errorDetails "Invalid input data" schemaErrors }, s1)
    else
      let pwErrors := validatePasswordStrength b.password
      if pwErrors ≠ [] then
        ({ status := 400,
           body := .errorDetails "Password does not meet security requirements"
             (pwErrors.map (fun e => e.message)) }, s1)
      else
        match findUserByEmail s1.db b.email with
        | some _ =>
          let rls2 := updateRateLimit ip rateLimitConfigs.auth false now s1.rls
          ({ status := 409, body := .error "Email already registered" },
           { s1 with rls := rls2 })
        | none =>
          let hashed := hash b.password
          let newUser : User :=
            { id := freshId, name := b.name, email := b.email,
              password := hashed, createdAt := now }
          let db1 := createUser s1.db newUser
          let rls2 := updateRateLimit ip rateLimitConfigs.auth true now s1.rls
          ({ status := 201,
             body := .registered "User registered successfully"
               { id := freshId, name := b.name, email := b.email, createdAt := now } },
           { s1 with db := db1, rls := rls2 })

/-- POST handler of `src/app/api/auth/login/route.ts`.
`bcryptCompare plain hashed` is bcryptjs `compare`. -/
def loginPOST (emailValid : String → Bool) (bcryptCompare : String → String → Bool)
    (ip : String) (b : LoginBody) (now : Int) (s : AppState) :
    ApiResponse × AppState :=
  let gate := rateLimitMiddleware rateLimitConfigs.login ip now s.rls s.fls
  match gate.1 with
  | some resp => (resp, { s with rls := gate.2.1, fls := gate.2.2 })
  | none =>
    let dgate := loginDelayMiddleware ip now gate.2.1 gate.2.2
    let s1 : AppState := { s with rls := dgate.2.1, fls := dgate.2.2 }
    match dgate.1 with
    | some resp => (resp, s1)
    | none =>
      let schemaErrors := loginSchemaErrors emailValid b
      if schemaErrors ≠ [] then
        let fls2 := recordFailedLogin ip now s1.fls
        let rls2 := updateRateLimit ip rateLimitConfigs.login false now s1.rls
        ({ status := 400, body := .errorDetails "Invalid input data" schemaErrors },
         { s1 with rls := rls2, fls := fls2 })
      else
        match findUserByEmail s1.db b.email with
        | none =>
          let fls2 := recordFailedLogin ip now s1.fls
          let rls2 := updateRateLimit ip rateLimitConfigs.login false now s1.rls
          ({ status := 401, body := .error "Invalid email or password" },
           { s1 with rls := rls2, fls := fls2 })
        | some u =>
          if !bcryptCompare b.password u.password then
            let fls2 := recordFailedLogin ip now s1.fls
            let rls2 := updateRateLimit ip rateLimitConfigs.login false now s1.rls
            ({ status := 401, body := .error "Invalid email or password" },
             { s1 with rls := rls2, fls := fls2 })
          else
            let fls2 := clearFailedLogins ip s1.fls
            let rls2 := updateRateLimit ip rateLimitConfigs.login true now s1.rls
            ({ status := 200,
               body := .loginOk "Credentials validated successfully"
                 { id := u.id, name := u.name, email := u.email,
                   image := u.image, emailVerified := u.emailVerified } },
             { s1 with rls := rls2, fls := fls2 })

/-- POST handler of `src/app/api/auth/forgot-password/route.ts`.
`freshToken` is the random token `generateToken()` would produce,
`resetTokenExpiry` is `env.security.resetTokenExpiry` in seconds. -/
def forgotPasswordPOST (emailValid : String → Bool) (freshToken : String)
    (resetTokenExpiry : Int) (ip : String) (b : ForgotPasswordBody) (now : Int)
    (s : AppState) : ApiResponse × AppState :=
  let gate := rateLimitMiddleware rateLimitConfigs.passwordReset ip now s.rls s.fls
  let s1 : AppState := { s with rls := gate.2.1, fls := gate.2.2 }
  match gate.1 with
  | some resp => (resp, s1)
  | none =>
    let schemaErrors := forgotSchemaErrors emailValid b
    if schemaErrors ≠ [] then
      let rls2 := updateRateLimit ip rateLimitConfigs.passwordReset false now s1.rls
      ({ status := 400, body := .errorDetails "Invalid input data" schemaErrors },
       { s1 with rls := rls2 })
    else
      match findUserByEmail s1.db b.email with
      | none =>
        let rls2 := updateRateLimit ip rateLimitConfigs.passwordReset true now s1.rls
        ({ status := 200,
           body := .message "If your email is registered, you will receive a password reset link." },
         { s1 with rls := rls2 })
      | some u =>
        let expires := now + resetTokenExpiry * 1000
        let db1 := createToken s1.db
          { identifier := u.id, token := freshToken, expires := expires }
        let mails1 := s1.mails ++
          [{ toAddr := b.email, subject := "Password Reset Request", token := freshToken }]
        let rls2 := updateRateLimit ip rateLimitConfigs.passwordReset true now s1.rls
        ({ status := 200,
           body := .message "If your email is registered, you will receive a password reset link." },
         { s1 with db := db1, mails := mails1, rls := rls2 })

/-- POST handler of `src/app/api/auth/reset-password/route.ts`. -/
def resetPasswordPOST (hash : String → String) (ip : String)
    (b : ResetPasswordBody) (now : Int) (s : AppState) :
    ApiResponse × AppState :=
  let gate := rateLimitMiddleware rateLimitConfigs.passwordReset ip now s.rls s.fls
  let s1 : AppState := { s with rls := gate.2.1, fls := gate.2.2 }
  match gate.1 with
  | some resp => (resp, s1)
  | none =>
    let schemaErrors := resetSchemaErrors b
    if schemaErrors ≠ [] then
      let rls2 := updateRateLimit ip rateLimitConfigs.passwordReset false now s1.rls
      ({ status := 400, body := .errorDetails "Invalid input data" schemaErrors },
       { s1 with rls := rls2 })
    else
      let pwErrors := validatePasswordStrength b.password
      if pwErrors ≠ [] then
        let rls2 := updateRateLimit ip rateLimitConfigs.passwordReset false now s1.rls
        ({ status := 400,
           body := .errorDetails "Password does not meet security requirements"
             (pwErrors.map (fun e => e.message)) },
         { s1 with rls := rls2 })
      else
        match findToken s1.db b.token with
        | none =>
          let rls2 := updateRateLimit ip rateLimitConfigs.passwordReset false now s1.rls
          ({ status := 400, body := .error "Invalid or expired password reset token" },
           { s1 with rls := rls2 })
        | some vt =>
          if now > vt.expires then
            let db1 := deleteToken s1.db b.token
            let rls2 := updateRateLimit ip rateLimitConfigs.passwordReset false now s1.rls
            ({ status := 400, body := .error "Password reset token has expired" },
             { s1 with db := db1, rls := rls2 })
          else
            match findUserById s1.db vt.identifier with
            | none =>
              let rls2 := updateRateLimit ip rateLimitConfigs.passwordReset false now s1.rls
              ({ status := 404, body := .error "User not found" },
               { s1 with rls := rls2 })
            | some u =>
              let hashed := hash b.password
              let db1 := updateUserPassword s1.db u.id hashed now
              let db2 := deleteToken db1 b.token
              let rls2 := updateRateLimit ip rateLimitConfigs.passwordReset true now s1.rls
              ({ status := 200, body := .message "Password has been reset successfully" },
               { s1 with db := db2, rls := rls2 })

/-- A sequence of forgot-password requests from one client identity,
run in order.  Each request is (email, fresh random token, request
time); the responses are collected in order. -/
def forgotPasswordTrace (emailValid : String → Bool) (resetTokenExpiry : Int)
    (ip : String) (reqs : List (String × String × Int)) (s : AppState) :
    List ApiResponse × AppState :=
  match reqs with
  | [] => ([], s)
  | (e, t, n) :: rest =>
    let r := forgotPasswordPOST emailValid t resetTokenExpiry ip { email := e } n s
    let rest' := forgotPasswordTrace emailValid resetTokenExpiry ip rest r.2
    (r.1 :: rest'.1, rest'.2)

/-- Claim C6: `calculateProgressiveDelay` equals the reference table for
every integer input: `attempts ≤ 0` returns 0; `1 ≤ attempts ≤ 5` returns
`2^(attempts-1) * 1000` (1000, 2000, 4000, 8000, 16000); `attempts > 5`
returns 30000. -/
theorem calculateProgressiveDelay_table :
    calculateProgressiveDelay 0 = 0 ∧
    calculateProgressiveDelay 1 = 1000 ∧
    calculateProgressiveDelay 2 = 2000 ∧
    calculateProgressiveDelay 3 = 4000 ∧
    calculateProgressiveDelay 4 = 8000 ∧
    calculateProgressiveDelay 5 = 16000 ∧
    calculateProgressiveDelay 6 = 30000 ∧
    (∀ a : Int, a ≤ 0 → calculateProgressiveDelay a = 0) ∧
    (∀ a : Int, 1 ≤ a → a ≤ 5 →
      calculateProgressiveDelay a = 2 ^ (a - 1).toNat * 1000) ∧
    (∀ a : Int, 5 < a → calculateProgressiveDelay a = 30000) := by
  refine ⟨by decide, by decide, by decide, by decide, by decide, by decide, by decide,
    ?_, ?_, ?_⟩
  · intro a ha
    rw [calculateProgressiveDelay, if_pos ha]
  · intro a ha1 ha5
    rw [calculateProgressiveDelay, if_neg (by omega), if_pos ha5]
  · intro a ha
    rw [calculateProgressiveDelay, if_neg (by omega), if_neg (by omega)]
    norm_num

/-- Witness for C6: concrete inputs in each of the three regimes. -/
theorem calculateProgressiveDelay_table_witness :
    calculateProgressiveDelay (-3) = 0 ∧
    calculateProgressiveDelay 4 = 2 ^ ((4 : Int) - 1).toNat * 1000 ∧
    calculateProgressiveDelay 7 = 30000 :=
  ⟨calculateProgressiveDelay_table.2.2.2.2.2.2.2.1 (-3) (by decide),
   calculateProgressiveDelay_table.2.2.2.2.2.2.2.2.1 4 (by decide) (by decide),
   calculateProgressiveDelay_table.2.2.2.2.2.2.2.2.2 7 (by decide)⟩

/-- Helper: rate-limit store lookups after the cleanup pass. -/
theorem cleanup_rls_get (now : Int) (rls : Store RateLimitEntry)
    (fls : Store FailedLoginEntry) (key : String) :
    storeGet (cleanupExpiredEntries now rls fls).1 key =
      (match rls key with
       | some e => if now > e.resetAt then none else some e
       | none => none) := rfl

/-- Helper: failed-login store lookups after the cleanup pass. -/
theorem cleanup_fls_get (now : Int) (rls : Store RateLimitEntry)
    (fls : Store FailedLoginEntry) (key : String) :
    storeGet (cleanupExpiredEntries now rls fls).2 key =
      (match fls key with
       | some e => if now - e.lastAttempt > 24 * 60 * 60 * 1000 then none else some e
       | none => none) := rfl

/-- Helper: `checkRateLimit` when the identity has no entry: the entry is
lazily created with a zero count. -/
theorem checkRateLimit_of_none (key : String) (config : RateLimitConfig)
    (now : Int) (rls : Store RateLimitEntry) (fls : Store FailedLoginEntry)
    (h : storeGet rls key = none) :
    checkRateLimit key config now rls fls =
      ({ isLimited := decide ((0 : Int) ≥ config.maxAttempts),
         remaining := max 0 (config.maxAttempts - 0),
         resetAt := now + config.windowMs },
       storeSet (cleanupExpiredEntries now rls fls).1 key
         { count := 0, resetAt := now + config.windowMs, failedAttempts := 0 },
       (cleanupExpiredEntries now rls fls).2) := by
  have hc : storeGet (cleanupExpiredEntries now rls fls).1 key = none := by
    rw [cleanup_rls_get]
    simp only [storeGet] at h
    rw [h]
  simp only [checkRateLimit]
  rw [hc]

/-- Helper: `checkRateLimit` when the identity has an expired entry: the
entry is replaced by a fresh one with a zero count. -/
theorem checkRateLimit_of_expired (key : String) (config : RateLimitConfig)
    (now : Int) (rls : Store RateLimitEntry) (fls : Store FailedLoginEntry)
    (e : RateLimitEntry) (h : storeGet rls key = some e) (hx : now > e.resetAt) :
    checkRateLimit key config now rls fls =
      ({ isLimited := decide ((0 : Int) ≥ config.maxAttempts),
         remaining := max 0 (config.maxAttempts - 0),
         resetAt := now + config.windowMs },
       storeSet (cleanupExpiredEntries now rls fls).1 key
         { count := 0, resetAt := now + config.windowMs, failedAttempts := 0 },
       (cleanupExpiredEntries now rls fls).2) := by
  have hc : storeGet (cleanupExpiredEntries now rls fls).1 key = none := by
    rw [cleanup_rls_get]
    simp only [storeGet] at h
    rw [h]
    simp [hx]
  simp only [checkRateLimit]
  rw [hc]

/-- Helper: `checkRateLimit` when the identity has a live entry: the entry
is untouched and the result is computed from it. -/
theorem checkRateLimit_of_live (key : String) (config : RateLimitConfig)
    (now : Int) (rls : Store RateLimitEntry) (fls : Store FailedLoginEntry)
    (e : RateLimitEntry) (h : storeGet rls key = some e) (hx : ¬ now > e.resetAt) :
    checkRateLimit key config now rls fls =
      ({ isLimited := decide (e.count ≥ config.maxAttempts),
         remaining := max 0 (config.maxAttempts - e.count),
         resetAt := e.resetAt },
       (cleanupExpiredEntries now rls fls).1,
       (cleanupExpiredEntries now rls fls).2) := by
  have hc : storeGet (cleanupExpiredEntries now rls fls).1 key = some e := by
    rw [cleanup_rls_get]
    simp only [storeGet] at h
    rw [h]
    simp [hx]
  simp only [checkRateLimit]
  rw [hc]
  simp [hx]

/-- Helper: looking up the key just written by `storeSet`. -/
theorem storeSet_get_self {α : Type} (s : Store α) (k : String) (v : α) :
    storeGet (storeSet s k v) k = some v := by
  simp [storeGet, storeSet]

/-- Claim C2: `checkRateLimit` lazily creates or resets the entry when it
is absent or expired (`now > resetAt`), setting `count = 0`,
`resetAt = now + windowMs`, `failedAttempts = 0`; it returns
`isLimited = (count ≥ maxAttempts)` and
`remaining = max 0 (maxAttempts - count)` of the (possibly fresh) entry;
it leaves a live entry untouched, and a second check at the same instant
leaves the count unchanged. -/
theorem checkRateLimit_postcondition (key : String) (config : RateLimitConfig)
    (now : Int) (rls : Store RateLimitEntry) (fls : Store FailedLoginEntry) :
    (storeGet rls key = none →
      storeGet (checkRateLimit key config now rls fls).2.1 key =
        some { count := 0, resetAt := now + config.windowMs, failedAttempts := 0,
               lastFailedAt := none } ∧
      (checkRateLimit key config now rls fls).1 =
        { isLimited := decide ((0 : Int) ≥ config.maxAttempts),
          remaining := max 0 (config.maxAttempts - 0),
          resetAt := now + config.windowMs }) ∧
    (∀ e, storeGet rls key = some e → now > e.resetAt →
      storeGet (checkRateLimit key config now rls fls).2.1 key =
        some { count := 0, resetAt := now + config.windowMs, failedAttempts := 0,
               lastFailedAt := none } ∧
      (checkRateLimit key config now rls fls).1 =
        { isLimited := decide ((0 : Int) ≥ config.maxAttempts),
          remaining := max 0 (config.maxAttempts - 0),
          resetAt := now + config.windowMs }) ∧
    (∀ e, storeGet rls key = some e → ¬ now > e.resetAt →
      storeGet (checkRateLimit key config now rls fls).2.1 key = some e ∧
      (checkRateLimit key config now rls fls).1 =
        { isLimited := decide (e.count ≥ config.maxAttempts),
          remaining := max 0 (config.maxAttempts - e.count),
          resetAt := e.resetAt }) ∧
    (∀ e', storeGet (checkRateLimit key config now rls fls).2.1 key = some e' →
      ∃ e'', storeGet (checkRateLimit key config now
          (checkRateLimit key config now rls fls).2.1
          (checkRateLimit key config now rls fls).2.2).2.1 key = some e'' ∧
        e''.count = e'.count) := by
  refine ⟨?_, ?_, ?_, ?_⟩
  · intro h
    rw [checkRateLimit_of_none key config now rls fls h]
    exact ⟨storeSet_get_self _ _ _, rfl⟩
  · intro e h hx
    rw [checkRateLimit_of_expired key config now rls fls e h hx]
    exact ⟨storeSet_get_self _ _ _, rfl⟩
  · intro e h hx
    rw [checkRateLimit_of_live key config now rls fls e h hx]
    refine ⟨?_, rfl⟩
    rw [cleanup_rls_get]
    simp only [storeGet] at h
    rw [h]
    simp [hx]
  · intro e' h1
    have hcase : e'.count = 0 ∨ ¬ now > e'.resetAt := by
      rcases ho : rls key with _ | e
      · rw [checkRateLimit_of_none key config now rls fls ho] at h1
        rw [storeSet_get_self] at h1
        injection h1 with h1
        subst h1
        exact Or.inl rfl
      · by_cases hx : now > e.resetAt
        · rw [checkRateLimit_of_expired key config now rls fls e ho hx] at h1
          rw [storeSet_get_self] at h1
          injection h1 with h1
          subst h1
          exact Or.inl rfl
        · rw [checkRateLimit_of_live key config now rls fls e ho hx] at h1
          rw [cleanup_rls_get] at h1
          rw [ho] at h1
          simp only [if_neg hx] at h1
          injection h1 with h1
          subst h1
          exact Or.inr hx
    by_cases hx2 : now > e'.resetAt
    · rcases hcase with h0 | hlive
      · rw [checkRateLimit_of_expired key config now _ _ e' h1 hx2]
        exact ⟨_, storeSet_get_self _ _ _, by simp [h0]⟩
      · exact absurd hx2 hlive
    · rw [checkRateLimit_of_live key config now _ _ e' h1 hx2]
      refine ⟨e', ?_, rfl⟩
      rw [cleanup_rls_get]
      simp only [storeGet] at h1
      rw [h1]
      simp [hx2]

/-- Claim C5: `updateRateLimit` is a no-op when no entry exists for the
identity; otherwise it increments `count` by exactly 1 unless
(success and skipSuccessfulRequests) or (failure and skipFailedRequests),
and on failure it additionally increments `failedAttempts` and stamps
`lastFailedAt`, regardless of whether `count` was incremented. -/
theorem updateRateLimit_postcondition (key : String) (config : RateLimitConfig)
    (success : Bool) (now : Int) (rls : Store RateLimitEntry) :
    (storeGet rls key = none → updateRateLimit key config success now rls = rls) ∧
    (∀ e, storeGet rls key = some e →
      storeGet (updateRateLimit key config success now rls) key = some
        { count := e.count +
            (if (success && config.skipSuccessfulRequests) ||
                (!success && config.skipFailedRequests) then 0 else 1),
          resetAt := e.resetAt,
          failedAttempts := if success then e.failedAttempts else e.failedAttempts + 1,
          lastFailedAt := if success then e.lastFailedAt else some now }) := by
  constructor
  · intro h
    rw [updateRateLimit, h]
  · intro e h
    rw [updateRateLimit, h]
    cases success <;> cases hs : config.skipSuccessfulRequests <;>
      cases hf : config.skipFailedRequests <;>
      simp [storeGet, storeSet, hs, hf]

/-- Witness for C5: a concrete failed update on a present entry
increments both counters and stamps the failure time. -/
theorem updateRateLimit_postcondition_witness :
    storeGet (updateRateLimit "ip" rateLimitConfigs.passwordReset false 50
      (storeSet (fun _ => none) "ip"
        { count := 1, resetAt := 99, failedAttempts := 0, lastFailedAt := none }))
      "ip" = some
      { count := 1 +
          (if (false && rateLimitConfigs.passwordReset.skipSuccessfulRequests) ||
              (!false && rateLimitConfigs.passwordReset.skipFailedRequests) then 0 else 1),
        resetAt := 99,
        failedAttempts := if false then 0 else 0 + 1,
        lastFailedAt := if false then none else some 50 } :=
  (updateRateLimit_postcondition "ip" rateLimitConfigs.passwordReset false 50
    (storeSet (fun _ => none) "ip"
      { count := 1, resetAt := 99, failedAttempts := 0, lastFailedAt := none })).2
    { count := 1, resetAt := 99, failedAttempts := 0, lastFailedAt := none } (by rfl)

/-- Claim C7: `recordFailedLogin` creates the entry if absent; a stored
streak whose last attempt is more than one hour old is reset to 0 before
counting the current failure (so that failure lands at `attempts = 1`
with a 1000 ms delay); otherwise `attempts` is incremented, `lastAttempt`
is set to `now` and `nextAllowedAt` to
`now + calculateProgressiveDelay attempts`. -/
theorem recordFailedLogin_postcondition (key : String) (now : Int)
    (fls : Store FailedLoginEntry) :
    (storeGet fls key = none →
      storeGet (recordFailedLogin key now fls) key =
        some { attempts := 1, lastAttempt := now, nextAllowedAt := now + 1000 }) ∧
    (∀ e, storeGet fls key = some e → now - e.lastAttempt > 60 * 60 * 1000 →
      storeGet (recordFailedLogin key now fls) key =
        some { attempts := 1, lastAttempt := now, nextAllowedAt := now + 1000 }) ∧
    (∀ e, storeGet fls key = some e → ¬ now - e.lastAttempt > 60 * 60 * 1000 →
      storeGet (recordFailedLogin key now fls) key =
        some { attempts := e.attempts + 1, lastAttempt := now,
               nextAllowedAt := now + calculateProgressiveDelay (e.attempts + 1) }) := by
  refine ⟨?_, ?_, ?_⟩
  · intro h
    rw [recordFailedLogin, h]
    simp only [if_neg (by omega : ¬ now - now > 60 * 60 * 1000)]
    simp [storeGet, storeSet, calculateProgressiveDelay]
  · intro e h hstale
    rw [recordFailedLogin, h]
    simp only [if_pos hstale]
    simp [storeGet, storeSet, calculateProgressiveDelay]
  · intro e h hfresh
    rw [recordFailedLogin, h]
    simp only [if_neg hfresh]
    simp [storeGet, storeSet]

/-- Witness for C7: a stale streak of 4 failures collapses to a single
fresh failure with the 1-second delay. -/
theorem recordFailedLogin_postcondition_witness :
    storeGet (recordFailedLogin "ip" 7200000
      (storeSet (fun _ => none) "ip"
        { attempts := 4, lastAttempt := 0, nextAllowedAt := 8000 })) "ip" =
      some { attempts := 1, lastAttempt := 7200000, nextAllowedAt := 7200000 + 1000 } :=
  (recordFailedLogin_postcondition "ip" 7200000
    (storeSet (fun _ => none) "ip"
      { attempts := 4, lastAttempt := 0, nextAllowedAt := 8000 })).2.1
    { attempts := 4, lastAttempt := 0, nextAllowedAt := 8000 } (by rfl) (by decide)

/-- Witness for C2: a fresh identity gets a zero-count entry. -/
theorem checkRateLimit_postcondition_witness :
    storeGet (checkRateLimit "ip" rateLimitConfigs.passwordReset 5
      (fun _ => none) (fun _ => none)).2.1 "ip" =
      some { count := 0, resetAt := 5 + rateLimitConfigs.passwordReset.windowMs,
             failedAttempts := 0, lastFailedAt := none } :=
  ((checkRateLimit_postcondition "ip" rateLimitConfigs.passwordReset 5
    (fun _ => none) (fun _ => none)).1 (by rfl)).1

/-- Helper: when the check is not limited, the rate-limit middleware
passes the request through, leaving the checked stores. -/
theorem rateLimitMiddleware_pass (config : RateLimitConfig) (key : String)
    (now : Int) (rls : Store RateLimitEntry) (fls : Store FailedLoginEntry)
    (h : (checkRateLimit key config now rls fls).1.isLimited = false) :
    rateLimitMiddleware config key now rls fls =
      (none, (checkRateLimit key config now rls fls).2.1,
       (checkRateLimit key config now rls fls).2.2) := by
  simp [rateLimitMiddleware, h]

/-- Helper: when no delay is due, the login-delay middleware passes the
request through, leaving the checked stores. -/
theorem loginDelayMiddleware_pass (key : String) (now : Int)
    (rls : Store RateLimitEntry) (fls : Store FailedLoginEntry)
    (h : (checkLoginDelay key now rls fls).1.isDelayed = false) :
    loginDelayMiddleware key now rls fls =
      (none, (checkLoginDelay key now rls fls).2.1,
       (checkLoginDelay key now rls fls).2.2) := by
  simp [loginDelayMiddleware, h]

/-- Helper: a token just deleted from the store is no longer found. -/
theorem findToken_deleteToken (db : Db) (t : String) :
    findToken (deleteToken db t) t = none := by
  simp only [findToken, deleteToken]
  rw [List.find?_eq_none]
  intro x hx
  have hmem := List.mem_filter.mp hx
  simpa using hmem.2

/-- Helper: full description of a successful reset-password run: the
password is updated, then the token row is deleted, then the rate limit
is updated as a success. -/
theorem resetPasswordPOST_success_eq (hash : String → String) (ip : String)
    (b : ResetPasswordBody) (now : Int) (s : AppState)
    (vt : VerificationToken) (u : User)
    (hgate : (checkRateLimit ip rateLimitConfigs.passwordReset now s.rls s.fls).1.isLimited = false)
    (hschema : resetSchemaErrors b = [])
    (hstrong : validatePasswordStrength b.password = [])
    (htok : findToken s.db b.token = some vt)
    (hlive : ¬ now > vt.expires)
    (huser : findUserById s.db vt.identifier = some u) :
    resetPasswordPOST hash ip b now s =
      ({ status := 200, body := .message "Password has been reset successfully" },
       { db := deleteToken (updateUserPassword s.db u.id (hash b.password) now) b.token,
         rls := updateRateLimit ip rateLimitConfigs.passwordReset true now
           (checkRateLimit ip rateLimitConfigs.passwordReset now s.rls s.fls).2.1,
         fls := (checkRateLimit ip rateLimitConfigs.passwordReset now s.rls s.fls).2.2,
         mails := s.mails }) := by
  have hm := rateLimitMiddleware_pass rateLimitConfigs.passwordReset ip now s.rls s.fls hgate
  simp only [resetPasswordPOST, hm, hschema, hstrong, htok, huser]
  simp [hlive]

/-- Helper: full description of a reset-password run whose token string
is not in the store: 400 with the not-found message, database untouched,
rate limit updated as a failure. -/
theorem resetPasswordPOST_notfound_eq (hash : String → String) (ip : String)
    (b : ResetPasswordBody) (now : Int) (s : AppState)
    (hgate : (checkRateLimit ip rateLimitConfigs.passwordReset now s.rls s.fls).1.isLimited = false)
    (hschema : resetSchemaErrors b = [])
    (hstrong : validatePasswordStrength b.password = [])
    (htok : findToken s.db b.token = none) :
    resetPasswordPOST hash ip b now s =
      ({ status := 400, body := .error "Invalid or expired password reset token" },
       { db := s.db,
         rls := updateRateLimit ip rateLimitConfigs.passwordReset false now
           (checkRateLimit ip rateLimitConfigs.passwordReset now s.rls s.fls).2.1,
         fls := (checkRateLimit ip rateLimitConfigs.passwordReset now s.rls s.fls).2.2,
         mails := s.mails }) := by
  have hm := rateLimitMiddleware_pass rateLimitConfigs.passwordReset ip now s.rls s.fls hgate
  simp only [resetPasswordPOST, hm, hschema, hstrong, htok]
  simp

/-- Helper: full description of a reset-password run that finds the token
expired: the token row is deleted, users untouched, 400 with the
expiry-specific message, rate limit updated as a failure. -/
theorem resetPasswordPOST_expired_eq (hash : String → String) (ip : String)
    (b : ResetPasswordBody) (now : Int) (s : AppState) (vt : VerificationToken)
    (hgate : (checkRateLimit ip rateLimitConfigs.passwordReset now s.rls s.fls).1.isLimited = false)
    (hschema : resetSchemaErrors b = [])
    (hstrong : validatePasswordStrength b.password = [])
    (htok : findToken s.db b.token = some vt)
    (hexp : now > vt.expires) :
    resetPasswordPOST hash ip b now s =
      ({ status := 400, body := .error "Password reset token has expired" },
       { db := deleteToken s.db b.token,
         rls := updateRateLimit ip rateLimitConfigs.passwordReset false now
           (checkRateLimit ip rateLimitConfigs.passwordReset now s.rls s.fls).2.1,
         fls := (checkRateLimit ip rateLimitConfigs.passwordReset now s.rls s.fls).2.2,
         mails := s.mails }) := by
  have hm := rateLimitMiddleware_pass rateLimitConfigs.passwordReset ip now s.rls s.fls hgate
  simp only [resetPasswordPOST, hm, hschema, hstrong, htok]
  simp [hexp]

/-- Concrete bcrypt stand-in used by witnesses. -/
def sampleHash (p : String) : String := "hashed:" ++ p

/-- Concrete user row used by witnesses. -/
def sampleUser : User :=
  { id := "u1", name := "Alice", email := "alice@example.com", password := "oldhash" }

/-- Concrete reset-token row used by witnesses (expires at t = 1000). -/
def sampleToken : VerificationToken :=
  { identifier := "u1", token := "tok123", expires := 1000 }

/-- Concrete database used by witnesses. -/
def sampleDb : Db := { users := [sampleUser], tokens := [sampleToken] }

/-- Concrete application state used by witnesses: one user, one live
token, empty rate-limit stores. -/
def sampleState : AppState :=
  { db := sampleDb, rls := fun _ => none, fls := fun _ => none, mails := [] }

/-- Concrete reset-password request body used by witnesses. -/
def sampleResetBody : ResetPasswordBody :=
  { token := "tok123", password := "Password1!", confirmPassword := "Password1!" }

/-- Claim C8: a reset-password request whose token is found but expired
deletes the token row (a subsequent lookup returns nothing), returns the
expiry-specific 400 error "Password reset token has expired", and leaves
every user row unchanged. -/
theorem reset_password_expired_consumption (hash : String → String)
    (ip : String) (b : ResetPasswordBody) (now : Int) (s : AppState)
    (vt : VerificationToken)
    (hgate : (checkRateLimit ip rateLimitConfigs.passwordReset now s.rls s.fls).1.isLimited = false)
    (hschema : resetSchemaErrors b = [])
    (hstrong : validatePasswordStrength b.password = [])
    (htok : findToken s.db b.token = some vt)
    (hexp : now > vt.expires) :
    (resetPasswordPOST hash ip b now s).1 =
      { status := 400, body := .error "Password reset token has expired" } ∧
    findToken (resetPasswordPOST hash ip b now s).2.db b.token = none ∧
    (resetPasswordPOST hash ip b now s).2.db.users = s.db.users := by
  rw [resetPasswordPOST_expired_eq hash ip b now s vt hgate hschema hstrong htok hexp]
  exact ⟨rfl, findToken_deleteToken s.db b.token, rfl⟩

/-- Witness for C8: the sample token consumed at t = 2000 (after its
expiry at t = 1000). -/
theorem reset_password_expired_consumption_witness :
    (resetPasswordPOST sampleHash "ip" sampleResetBody 2000 sampleState).1 =
      { status := 400, body := .error "Password reset token has expired" } ∧
    findToken (resetPasswordPOST sampleHash "ip" sampleResetBody 2000 sampleState).2.db
      "tok123" = none ∧
    (resetPasswordPOST sampleHash "ip" sampleResetBody 2000 sampleState).2.db.users =
      sampleState.db.users :=
  reset_password_expired_consumption sampleHash "ip" sampleResetBody 2000 sampleState
    sampleToken (by decide) (by decide) (by decide) (by decide) (by decide)

/-- Claim C1: a reset token is single use.  A first successful consume
(valid matching strong passwords, live token, existing owner) returns
200 and deletes the token row; a second consume with the identical token
string hits the not-found branch: it fails with the 400 error
"Invalid or expired password reset token" (not the expired message) and
leaves the database, in particular the user's password, unchanged. -/
theorem reset_token_single_use (hash : String → String) (ip : String)
    (b : ResetPasswordBody) (now1 now2 : Int) (s : AppState)
    (vt : VerificationToken) (u : User)
    (hgate1 : (checkRateLimit ip rateLimitConfigs.passwordReset now1 s.rls s.fls).1.isLimited = false)
    (hschema : resetSchemaErrors b = [])
    (hstrong : validatePasswordStrength b.password = [])
    (htok : findToken s.db b.token = some vt)
    (hlive : ¬ now1 > vt.expires)
    (huser : findUserById s.db vt.identifier = some u)
    (hgate2 : (checkRateLimit ip rateLimitConfigs.passwordReset now2
        (resetPasswordPOST hash ip b now1 s).2.rls
        (resetPasswordPOST hash ip b now1 s).2.fls).1.isLimited = false) :
    (resetPasswordPOST hash ip b now1 s).1 =
      { status := 200, body := .message "Password has been reset successfully" } ∧
    findToken (resetPasswordPOST hash ip b now1 s).2.db b.token = none ∧
    (resetPasswordPOST hash ip b now2 (resetPasswordPOST hash ip b now1 s).2).1 =
      { status := 400, body := .error "Invalid or expired password reset token" } ∧
    (resetPasswordPOST hash ip b now2 (resetPasswordPOST hash ip b now1 s).2).2.db =
      (resetPasswordPOST hash ip b now1 s).2.db := by
  have h1 := resetPasswordPOST_success_eq hash ip b now1 s vt u hgate1 hschema
    hstrong htok hlive huser
  have htok2 : findToken (resetPasswordPOST hash ip b now1 s).2.db b.token = none := by
    rw [h1]
    exact findToken_deleteToken _ _
  have h2 := resetPasswordPOST_notfound_eq hash ip b now2
    (resetPasswordPOST hash ip b now1 s).2 hgate2 hschema hstrong htok2
  refine ⟨?_, htok2, ?_, ?_⟩
  · rw [h1]
  · rw [h2]
  · rw [h2]

/-- Witness for C1: the sample token consumed twice at t = 0. -/
theorem reset_token_single_use_witness :
    (resetPasswordPOST sampleHash "ip" sampleResetBody 0 sampleState).1 =
      { status := 200, body := .message "Password has been reset successfully" } ∧
    findToken (resetPasswordPOST sampleHash "ip" sampleResetBody 0 sampleState).2.db
      "tok123" = none ∧
    (resetPasswordPOST sampleHash "ip" sampleResetBody 0
        (resetPasswordPOST sampleHash "ip" sampleResetBody 0 sampleState).2).1 =
      { status := 400, body := .error "Invalid or expired password reset token" } ∧
    (resetPasswordPOST sampleHash "ip" sampleResetBody 0
        (resetPasswordPOST sampleHash "ip" sampleResetBody 0 sampleState).2).2.db =
      (resetPasswordPOST sampleHash "ip" sampleResetBody 0 sampleState).2.db :=
  reset_token_single_use sampleHash "ip" sampleResetBody 0 0 sampleState sampleToken
    sampleUser (by decide) (by decide) (by decide) (by decide) (by decide) (by decide)
    (by decide)

/-- Helper: full description of a forgot-password run for an
unregistered address: no token, no mail, success response, rate limit
updated as a success. -/
theorem forgotPasswordPOST_nouser_eq (emailValid : String → Bool)
    (freshToken : String) (expiry : Int) (ip : String) (b : ForgotPasswordBody)
    (now : Int) (s : AppState)
    (hgate : (checkRateLimit ip rateLimitConfigs.passwordReset now s.rls s.fls).1.isLimited = false)
    (hschema : forgotSchemaErrors emailValid b = [])
    (hnone : findUserByEmail s.db b.email = none) :
    forgotPasswordPOST emailValid freshToken expiry ip b now s =
      ({ status := 200,
         body := .message "If your email is registered, you will receive a password reset link." },
       { db := s.db,
         rls := updateRateLimit ip rateLimitConfigs.passwordReset true now
           (checkRateLimit ip rateLimitConfigs.passwordReset now s.rls s.fls).2.1,
         fls := (checkRateLimit ip rateLimitConfigs.passwordReset now s.rls s.fls).2.2,
         mails := s.mails }) := by
  have hm := rateLimitMiddleware_pass rateLimitConfigs.passwordReset ip now s.rls s.fls hgate
  simp only [forgotPasswordPOST, hm, hschema, hnone]
  simp

/-- Helper: full description of a forgot-password run for a registered
address: a token row is created and a mail sent, same success response,
rate limit updated as a success. -/
theorem forgotPasswordPOST_user_eq (emailValid : String → Bool)
    (freshToken : String) (expiry : Int) (ip : String) (b : ForgotPasswordBody)
    (now : Int) (s : AppState) (u : User)
    (hgate : (checkRateLimit ip rateLimitConfigs.passwordReset now s.rls s.fls).1.isLimited = false)
    (hschema : forgotSchemaErrors emailValid b = [])
    (hsome : findUserByEmail s.db b.email = some u) :
    forgotPasswordPOST emailValid freshToken expiry ip b now s =
      ({ status := 200,
         body := .message "If your email is registered, you will receive a password reset link." },
       { db := createToken s.db
           { identifier := u.id, token := freshToken, expires := now + expiry * 1000 },
         rls := updateRateLimit ip rateLimitConfigs.passwordReset true now
           (checkRateLimit ip rateLimitConfigs.passwordReset now s.rls s.fls).2.1,
         fls := (checkRateLimit ip rateLimitConfigs.passwordReset now s.rls s.fls).2.2,
         mails := s.mails ++
           [{ toAddr := b.email, subject := "Password Reset Request", token := freshToken }] }) := by
  have hm := rateLimitMiddleware_pass rateLimitConfigs.passwordReset ip now s.rls s.fls hgate
  simp only [forgotPasswordPOST, hm, hschema, hsome]
  simp

/-- Helper: a forgot-password run past the gate with a valid e-mail
always answers 200 with the fixed message, whether or not the address is
registered. -/
theorem forgotPasswordPOST_response_ok (emailValid : String → Bool)
    (freshToken : String) (expiry : Int) (ip : String) (b : ForgotPasswordBody)
    (now : Int) (s : AppState)
    (hgate : (checkRateLimit ip rateLimitConfigs.passwordReset now s.rls s.fls).1.isLimited = false)
    (hschema : forgotSchemaErrors emailValid b = []) :
    (forgotPasswordPOST emailValid freshToken expiry ip b now s).1 =
      { status := 200,
        body := .message "If your email is registered, you will receive a password reset link." } := by
  rcases hu : findUserByEmail s.db b.email with _ | u
  · rw [forgotPasswordPOST_nouser_eq emailValid freshToken expiry ip b now s hgate hschema hu]
  · rw [forgotPasswordPOST_user_eq emailValid freshToken expiry ip b now s u hgate hschema hu]

/-- Claim C3: anti-enumeration.  For a syntactically valid e-mail, two
forgot-password runs over states with identical rate-limit stores return
the identical 200 response regardless of whether a user with that e-mail
exists; only the registered case appends a verification-token row and
sends a reset mail, and the unregistered case writes neither. -/
theorem forgot_password_anti_enumeration (emailValid : String → Bool)
    (freshToken : String) (expiry : Int) (ip email : String) (now : Int)
    (s1 s2 : AppState)
    (hrls : s1.rls = s2.rls) (hfls : s1.fls = s2.fls)
    (hvalid : emailValid email = true)
    (hgate : (checkRateLimit ip rateLimitConfigs.passwordReset now s1.rls s1.fls).1.isLimited = false) :
    (forgotPasswordPOST emailValid freshToken expiry ip { email := email } now s1).1 =
      (forgotPasswordPOST emailValid freshToken expiry ip { email := email } now s2).1 ∧
    (forgotPasswordPOST emailValid freshToken expiry ip { email := email } now s1).1 =
      { status := 200,
        body := .message "If your email is registered, you will receive a password reset link." } ∧
    (findUserByEmail s1.db email = none →
      (forgotPasswordPOST emailValid freshToken expiry ip { email := email } now s1).2.db = s1.db ∧
      (forgotPasswordPOST emailValid freshToken expiry ip { email := email } now s1).2.mails = s1.mails) ∧
    (∀ u, findUserByEmail s1.db email = some u →
      (forgotPasswordPOST emailValid freshToken expiry ip { email := email } now s1).2.db.tokens =
        { identifier := u.id, token := freshToken, expires := now + expiry * 1000 } :: s1.db.tokens ∧
      (forgotPasswordPOST emailValid freshToken expiry ip { email := email } now s1).2.mails =
        s1.mails ++ [{ toAddr := email, subject := "Password Reset Request", token := freshToken }]) := by
  have hschema : forgotSchemaErrors emailValid { email := email } = [] := by
    simp [forgotSchemaErrors, hvalid]
  have hgate2 : (checkRateLimit ip rateLimitConfigs.passwordReset now s2.rls s2.fls).1.isLimited = false := by
    rw [← hrls, ← hfls]
    exact hgate
  have hr1 := forgotPasswordPOST_response_ok emailValid freshToken expiry ip
    { email := email } now s1 hgate hschema
  have hr2 := forgotPasswordPOST_response_ok emailValid freshToken expiry ip
    { email := email } now s2 hgate2 hschema
  refine ⟨hr1.trans hr2.symm, hr1, ?_, ?_⟩
  · intro hnone
    rw [forgotPasswordPOST_nouser_eq emailValid freshToken expiry ip
      { email := email } now s1 hgate hschema hnone]
    exact ⟨rfl, rfl⟩
  · intro u hsome
    rw [forgotPasswordPOST_user_eq emailValid freshToken expiry ip
      { email := email } now s1 u hgate hschema hsome]
    exact ⟨rfl, rfl⟩

/-- Concrete state with the same (empty) rate-limit stores as
`sampleState` but no registered users. -/
def sampleStateNoUser : AppState :=
  { db := { users := [], tokens := [] }, rls := fun _ => none,
    fls := fun _ => none, mails := [] }

/-- Witness for C3: the sample address, registered in `sampleState` and
absent from `sampleStateNoUser`, gets the identical 200 response. -/
theorem forgot_password_anti_enumeration_witness :
    (forgotPasswordPOST (fun _ => true) "newtok" 86400 "ip"
        { email := "alice@example.com" } 0 sampleState).1 =
      (forgotPasswordPOST (fun _ => true) "newtok" 86400 "ip"
        { email := "alice@example.com" } 0 sampleStateNoUser).1 ∧
    (forgotPasswordPOST (fun _ => true) "newtok" 86400 "ip"
        { email := "alice@example.com" } 0 sampleState).1 =
      { status := 200,
        body := .message "If your email is registered, you will receive a password reset link." } :=
  ⟨(forgot_password_anti_enumeration (fun _ => true) "newtok" 86400 "ip"
      "alice@example.com" 0 sampleState sampleStateNoUser rfl rfl rfl (by decide)).1,
   (forgot_password_anti_enumeration (fun _ => true) "newtok" 86400 "ip"
      "alice@example.com" 0 sampleState sampleStateNoUser rfl rfl rfl (by decide)).2.1⟩

/-- Helper: `updateRateLimit` is a no-op when the identity has no entry. -/
theorem updateRateLimit_of_none (key : String) (config : RateLimitConfig)
    (success : Bool) (now : Int) (rls : Store RateLimitEntry)
    (h : storeGet rls key = none) :
    updateRateLimit key config success now rls = rls := by
  rw [updateRateLimit, h]

/-- Helper: a successful update under `skipSuccessfulRequests` rewrites
the entry unchanged. -/
theorem updateRateLimit_success_skip (key : String) (config : RateLimitConfig)
    (now : Int) (rls : Store RateLimitEntry) (e : RateLimitEntry)
    (h : storeGet rls key = some e) (hskip : config.skipSuccessfulRequests = true) :
    storeGet (updateRateLimit key config true now rls) key = some e := by
  rw [updateRateLimit, h]
  simp [hskip, storeGet, storeSet]

/-- Helper: a successful update under `skipSuccessfulRequests` preserves
the all-zero-count property of the identity's entry. -/
theorem updateRateLimit_success_count_zero (key : String) (config : RateLimitConfig)
    (now : Int) (rls : Store RateLimitEntry)
    (hskip : config.skipSuccessfulRequests = true)
    (hzero : ∀ e, storeGet rls key = some e → e.count = 0) :
    ∀ e, storeGet (updateRateLimit key config true now rls) key = some e →
      e.count = 0 := by
  intro e he
  rcases hC : storeGet rls key with _ | ec
  · rw [updateRateLimit_of_none key config true now rls hC] at he
    rw [hC] at he
    cases he
  · rw [updateRateLimit_success_skip key config now rls ec hC hskip] at he
    injection he with he
    subst he
    exact hzero ec hC

/-- Helper: the checked store keeps the identity's count at zero when it
was zero (or absent) before the check. -/
theorem checkRateLimit_store_count_zero (key : String) (config : RateLimitConfig)
    (now : Int) (rls : Store RateLimitEntry) (fls : Store FailedLoginEntry)
    (hzero : ∀ e, storeGet rls key = some e → e.count = 0) :
    ∀ e, storeGet (checkRateLimit key config now rls fls).2.1 key = some e →
      e.count = 0 := by
  intro e he
  rcases ho : rls key with _ | e0
  · rw [checkRateLimit_of_none key config now rls fls ho] at he
    rw [storeSet_get_self] at he
    injection he with he
    subst he
    rfl
  · by_cases hx : now > e0.resetAt
    · rw [checkRateLimit_of_expired key config now rls fls e0 ho hx] at he
      rw [storeSet_get_self] at he
      injection he with he
      subst he
      rfl
    · rw [checkRateLimit_of_live key config now rls fls e0 ho hx] at he
      rw [cleanup_rls_get] at he
      rw [ho] at he
      simp only [if_neg hx] at he
      injection he with he
      subst he
      exact hzero e0 ho

/-- Helper: the check is never limited while the identity's count is zero
(or the entry absent) and the configured threshold is positive. -/
theorem checkRateLimit_not_limited_of_zero (key : String) (config : RateLimitConfig)
    (now : Int) (rls : Store RateLimitEntry) (fls : Store FailedLoginEntry)
    (hzero : ∀ e, storeGet rls key = some e → e.count = 0)
    (hmax : 0 < config.maxAttempts) :
    (checkRateLimit key config now rls fls).1.isLimited = false := by
  rcases ho : rls key with _ | e0
  · rw [checkRateLimit_of_none key config now rls fls ho]
    exact decide_eq_false (by omega)
  · by_cases hx : now > e0.resetAt
    · rw [checkRateLimit_of_expired key config now rls fls e0 ho hx]
      exact decide_eq_false (by omega)
    · rw [checkRateLimit_of_live key config now rls fls e0 ho hx]
      have h0 := hzero e0 ho
      exact decide_eq_false (by omega)

/-- Helper: one valid-body forgot-password request answers 200 and keeps
the identity's count at zero. -/
theorem forgot_trace_step (emailValid : String → Bool) (t : String) (expiry : Int)
    (ip : String) (b : ForgotPasswordBody) (n : Int) (s : AppState)
    (hv : emailValid b.email = true)
    (hzero : ∀ e, storeGet s.rls ip = some e → e.count = 0) :
    (forgotPasswordPOST emailValid t expiry ip b n s).1 =
      { status := 200,
        body := .message "If your email is registered, you will receive a password reset link." } ∧
    (∀ e, storeGet (forgotPasswordPOST emailValid t expiry ip b n s).2.rls ip = some e →
      e.count = 0) := by
  have hschema : forgotSchemaErrors emailValid b = [] := by
    simp [forgotSchemaErrors, hv]
  have hgate := checkRateLimit_not_limited_of_zero ip rateLimitConfigs.passwordReset
    n s.rls s.fls hzero (by decide)
  have hchk := checkRateLimit_store_count_zero ip rateLimitConfigs.passwordReset
    n s.rls s.fls hzero
  refine ⟨forgotPasswordPOST_response_ok emailValid t expiry ip b n s hgate hschema, ?_⟩
  rcases hu : findUserByEmail s.db b.email with _ | u
  · rw [forgotPasswordPOST_nouser_eq emailValid t expiry ip b n s hgate hschema hu]
    exact updateRateLimit_success_count_zero ip rateLimitConfigs.passwordReset n _
      (by decide) hchk
  · rw [forgotPasswordPOST_user_eq emailValid t expiry ip b n s u hgate hschema hu]
    exact updateRateLimit_success_count_zero ip rateLimitConfigs.passwordReset n _
      (by decide) hchk

/-- Claim C10: because the password-reset configuration skips successful
requests and every schema-valid forgot-password request is reported to
the limiter as a success, the identity's count is never incremented by
such requests: a sequence of schema-valid forgot-password requests of any
length, starting from a state where the identity's count is zero (or no
entry exists), receives the 200 success response every single time —
never a 429 — and leaves the count at zero. -/
theorem forgot_password_sequence_never_limited (emailValid : String → Bool)
    (expiry : Int) (ip : String) (reqs : List (String × String × Int))
    (s : AppState)
    (hvalid : ∀ r ∈ reqs, emailValid r.1 = true)
    (hzero : ∀ e, storeGet s.rls ip = some e → e.count = 0) :
    (∀ resp ∈ (forgotPasswordTrace emailValid expiry ip reqs s).1,
      resp = { status := 200,
               body := .message "If your email is registered, you will receive a password reset link." }) ∧
    (∀ e, storeGet (forgotPasswordTrace emailValid expiry ip reqs s).2.rls ip = some e →
      e.count = 0) := by
  induction reqs generalizing s with
  | nil =>
    refine ⟨?_, hzero⟩
    intro resp hresp
    simp [forgotPasswordTrace] at hresp
  | cons hd tl ih =>
    obtain ⟨em, t, n⟩ := hd
    have hstep := forgot_trace_step emailValid t expiry ip { email := em } n s
      (hvalid (em, t, n) (List.mem_cons_self _ _)) hzero
    have hrest := ih (forgotPasswordPOST emailValid t expiry ip { email := em } n s).2
      (fun r hr => hvalid r (List.mem_cons_of_mem _ hr)) hstep.2
    constructor
    · intro resp hresp
      simp only [forgotPasswordTrace] at hresp
      rcases List.mem_cons.mp hresp with h | h
      · rw [h]
        exact hstep.1
      · exact hrest.1 resp h
    · simp only [forgotPasswordTrace]
      exact hrest.2

/-- Witness for C10: three schema-valid requests (mixed registered and
unregistered addresses) from one identity, against the 3-per-hour quota,
all answered 200. -/
theorem forgot_password_sequence_never_limited_witness :
    (∀ resp ∈ (forgotPasswordTrace (fun _ => true) 86400 "ip"
        [("alice@example.com", "t1", 0), ("bob@example.com", "t2", 1),
         ("alice@example.com", "t3", 2)] sampleState).1,
      resp = { status := 200,
               body := .message "If your email is registered, you will receive a password reset link." }) ∧
    (∀ e, storeGet (forgotPasswordTrace (fun _ => true) 86400 "ip"
        [("alice@example.com", "t1", 0), ("bob@example.com", "t2", 1),
         ("alice@example.com", "t3", 2)] sampleState).2.rls "ip" = some e →
      e.count = 0) :=
  forgot_password_sequence_never_limited (fun _ => true) 86400 "ip"
    [("alice@example.com", "t1", 0), ("bob@example.com", "t2", 1),
     ("alice@example.com", "t3", 2)] sampleState
    (by intro r hr; rfl) (by intro e he; cases he)

/-- Claim C9: login bookkeeping.  Past the rate-limit and delay gates and
schema validation: an authentication failure — whether the user is absent
or the password mismatches — fires both `recordFailedLogin` and the
rate-limit failure update and returns the same generic 401
"Invalid email or password" in both causes; a success fires
`clearFailedLogins` and the rate-limit success update. -/
theorem login_bookkeeping (emailValid : String → Bool)
    (bcryptCompare : String → String → Bool) (ip : String) (b : LoginBody)
    (now : Int) (s : AppState)
    (hgate : (checkRateLimit ip rateLimitConfigs.login now s.rls s.fls).1.isLimited = false)
    (hdelay : (checkLoginDelay ip now
        (checkRateLimit ip rateLimitConfigs.login now s.rls s.fls).2.1
        (checkRateLimit ip rateLimitConfigs.login now s.rls s.fls).2.2).1.isDelayed = false)
    (hschema : loginSchemaErrors emailValid b = []) :
    (findUserByEmail s.db b.email = none →
      (loginPOST emailValid bcryptCompare ip b now s).1 =
        { status := 401, body := .error "Invalid email or password" } ∧
      (loginPOST emailValid bcryptCompare ip b now s).2.fls =
        recordFailedLogin ip now (checkLoginDelay ip now
          (checkRateLimit ip rateLimitConfigs.login now s.rls s.fls).2.1
          (checkRateLimit ip rateLimitConfigs.login now s.rls s.fls).2.2).2.2 ∧
      (loginPOST emailValid bcryptCompare ip b now s).2.rls =
        updateRateLimit ip rateLimitConfigs.login false now (checkLoginDelay ip now
          (checkRateLimit ip rateLimitConfigs.login now s.rls s.fls).2.1
          (checkRateLimit ip rateLimitConfigs.login now s.rls s.fls).2.2).2.1) ∧
    (∀ u, findUserByEmail s.db b.email = some u →
      bcryptCompare b.password u.password = false →
      (loginPOST emailValid bcryptCompare ip b now s).1 =
        { status := 401, body := .error "Invalid email or password" } ∧
      (loginPOST emailValid bcryptCompare ip b now s).2.fls =
        recordFailedLogin ip now (checkLoginDelay ip now
          (checkRateLimit ip rateLimitConfigs.login now s.rls s.fls).2.1
          (checkRateLimit ip rateLimitConfigs.login now s.rls s.fls).2.2).2.2 ∧
      (loginPOST emailValid bcryptCompare ip b now s).2.rls =
        updateRateLimit ip rateLimitConfigs.login false now (checkLoginDelay ip now
          (checkRateLimit ip rateLimitConfigs.login now s.rls s.fls).2.1
          (checkRateLimit ip rateLimitConfigs.login now s.rls s.fls).2.2).2.1) ∧
    (∀ u, findUserByEmail s.db b.email = some u →
      bcryptCompare b.password u.password = true →
      (loginPOST emailValid bcryptCompare ip b now s).1 =
        { status := 200,
          body := .loginOk "Credentials validated successfully"
            { id := u.id, name := u.name, email := u.email,
              image := u.image, emailVerified := u.emailVerified } } ∧
      (loginPOST emailValid bcryptCompare ip b now s).2.fls =
        clearFailedLogins ip (checkLoginDelay ip now
          (checkRateLimit ip rateLimitConfigs.login now s.rls s.fls).2.1
          (checkRateLimit ip rateLimitConfigs.login now s.rls s.fls).2.2).2.2 ∧
      (loginPOST emailValid bcryptCompare ip b now s).2.rls =
        updateRateLimit ip rateLimitConfigs.login true now (checkLoginDelay ip now
          (checkRateLimit ip rateLimitConfigs.login now s.rls s.fls).2.1
          (checkRateLimit ip rateLimitConfigs.login now s.rls s.fls).2.2).2.1) := by
  have hm := rateLimitMiddleware_pass rateLimitConfigs.login ip now s.rls s.fls hgate
  have hd := loginDelayMiddleware_pass ip now
    (checkRateLimit ip rateLimitConfigs.login now s.rls s.fls).2.1
    (checkRateLimit ip rateLimitConfigs.login now s.rls s.fls).2.2 hdelay
  refine ⟨?_, ?_, ?_⟩
  · intro hnone
    simp only [loginPOST, hm, hd, hschema, hnone]
    simp
  · intro u hsome hcmp
    simp only [loginPOST, hm, hd, hschema, hsome]
    simp [hcmp]
  · intro u hsome hcmp
    simp only [loginPOST, hm, hd, hschema, hsome]
    simp [hcmp, clearFailedLogins]

/-- Concrete login request body used by the C9 witness. -/
def sampleLoginBody : LoginBody := { email := "alice@example.com", password := "pw" }

/-- Witness for C9: against the sample user, a mismatching comparator
yields the generic 401 and a matching comparator yields the 200. -/
theorem login_bookkeeping_witness :
    (loginPOST (fun _ => true) (fun _ _ => false) "ip" sampleLoginBody 0 sampleState).1 =
      { status := 401, body := .error "Invalid email or password" } ∧
    (loginPOST (fun _ => true) (fun _ _ => true) "ip" sampleLoginBody 0 sampleState).1 =
      { status := 200,
        body := .loginOk "Credentials validated successfully"
          { id := sampleUser.id, name := sampleUser.name, email := sampleUser.email,
            image := sampleUser.image, emailVerified := sampleUser.emailVerified } } :=
  ⟨((login_bookkeeping (fun _ => true) (fun _ _ => false) "ip" sampleLoginBody 0
      sampleState (by decide) (by decide) (by decide)).2.1 sampleUser (by decide)
      (by decide)).1,
   ((login_bookkeeping (fun _ => true) (fun _ _ => true) "ip" sampleLoginBody 0
      sampleState (by decide) (by decide) (by decide)).2.2 sampleUser (by decide)
      (by decide)).1⟩

/-- Helper: a register run whose body fails schema validation returns 400
and leaves the rate-limit store exactly as the gate's check produced it —
no `updateRateLimit` call happens on this path. -/
theorem registerPOST_invalid_eq (emailValid : String → Bool)
    (hash : String → String) (freshId ip : String) (b : RegisterBody)
    (now : Int) (s : AppState)
    (hgate : (checkRateLimit ip rateLimitConfigs.auth now s.rls s.fls).1.isLimited = false)
    (hbad : registerSchemaErrors emailValid b ≠ []) :
    registerPOST emailValid hash freshId ip b now s =
      ({ status := 400,
         body := .errorDetails "Invalid input data" (registerSchemaErrors emailValid b) },
       { db := s.db,
         rls := (checkRateLimit ip rateLimitConfigs.auth now s.rls s.fls).2.1,
         fls := (checkRateLimit ip rateLimitConfigs.auth now s.rls s.fls).2.2,
         mails := s.mails }) := by
  have hm := rateLimitMiddleware_pass rateLimitConfigs.auth ip now s.rls s.fls hgate
  simp only [registerPOST, hm]
  simp [hbad]

/-- Helper: a register run rejected for weak password returns 400 and
likewise leaves the rate-limit store as the gate's check produced it. -/
theorem registerPOST_weak_eq (emailValid : String → Bool)
    (hash : String → String) (freshId ip : String) (b : RegisterBody)
    (now : Int) (s : AppState)
    (hgate : (checkRateLimit ip rateLimitConfigs.auth now s.rls s.fls).1.isLimited = false)
    (hok : registerSchemaErrors emailValid b = [])
    (hweak : validatePasswordStrength b.password ≠ []) :
    registerPOST emailValid hash freshId ip b now s =
      ({ status := 400,
         body := .errorDetails "Password does not meet security requirements"
           ((validatePasswordStrength b.password).map (fun e => e.message)) },
       { db := s.db,
         rls := (checkRateLimit ip rateLimitConfigs.auth now s.rls s.fls).2.1,
         fls := (checkRateLimit ip rateLimitConfigs.auth now s.rls s.fls).2.2,
         mails := s.mails }) := by
  have hm := rateLimitMiddleware_pass rateLimitConfigs.auth ip now s.rls s.fls hgate
  simp only [registerPOST, hm, hok]
  simp [hweak]

/-- Helper: a register run hitting the duplicate-email case returns 409
and does record a failed rate-limit update. -/
theorem registerPOST_conflict_eq (emailValid : String → Bool)
    (hash : String → String) (freshId ip : String) (b : RegisterBody)
    (now : Int) (s : AppState) (u : User)
    (hgate : (checkRateLimit ip rateLimitConfigs.auth now s.rls s.fls).1.isLimited = false)
    (hok : registerSchemaErrors emailValid b = [])
    (hstrong : validatePasswordStrength b.password = [])
    (hdup : findUserByEmail s.db b.email = some u) :
    registerPOST emailValid hash freshId ip b now s =
      ({ status := 409, body := .error "Email already registered" },
       { db := s.db,
         rls := updateRateLimit ip rateLimitConfigs.auth false now
           (checkRateLimit ip rateLimitConfigs.auth now s.rls s.fls).2.1,
         fls := (checkRateLimit ip rateLimitConfigs.auth now s.rls s.fls).2.2,
         mails := s.mails }) := by
  have hm := rateLimitMiddleware_pass rateLimitConfigs.auth ip now s.rls s.fls hgate
  simp only [registerPOST, hm, hok, hstrong, hdup]
  simp

/-- Registration body failing schema validation (name shorter than 2). -/
def badRegisterBody : RegisterBody :=
  { name := "T", email := "alice@example.com", password := "Password1!" }

/-- Counterexample to C4 as stated: a registration request failing schema
validation gets its 400, but the identity's rate-limit entry still shows
`count = 0` and `failedAttempts = 0` — exactly the entry the gate's check
created, with no failed attempt recorded.  The last conjunct shows what
the entry would have been had the handler recorded the failure the way
the 409 duplicate-email path does. -/
theorem register_validation_quota_counterexample :
    (registerPOST (fun _ => true) sampleHash "u9" "ip" badRegisterBody 0 sampleState).1.status = 400 ∧
    storeGet (registerPOST (fun _ => true) sampleHash "u9" "ip" badRegisterBody 0
      sampleState).2.rls "ip" =
      some { count := 0, resetAt := 3600000, failedAttempts := 0, lastFailedAt := none } ∧
    storeGet (updateRateLimit "ip" rateLimitConfigs.auth false 0
      (registerPOST (fun _ => true) sampleHash "u9" "ip" badRegisterBody 0
        sampleState).2.rls) "ip" =
      some { count := 1, resetAt := 3600000, failedAttempts := 1, lastFailedAt := some 0 } := by
  refine ⟨by decide, by decide, by decide⟩

/-- Claim C4 as amended: in the registration handler, schema-validation
failures and weak-password rejections return 400 WITHOUT recording a
failed attempt (the rate-limit store stays exactly as the gate's check
left it); only the duplicate-email 409 path records a failed attempt. -/
theorem register_validation_quota_amended (emailValid : String → Bool)
    (hash : String → String) (freshId ip : String) (b : RegisterBody)
    (now : Int) (s : AppState)
    (hgate : (checkRateLimit ip rateLimitConfigs.auth now s.rls s.fls).1.isLimited = false) :
    (registerSchemaErrors emailValid b ≠ [] →
      (registerPOST emailValid hash freshId ip b now s).1 =
        { status := 400,
          body := .errorDetails "Invalid input data" (registerSchemaErrors emailValid b) } ∧
      (registerPOST emailValid hash freshId ip b now s).2.rls =
        (checkRateLimit ip rateLimitConfigs.auth now s.rls s.fls).2.1) ∧
    (registerSchemaErrors emailValid b = [] →
      validatePasswordStrength b.password ≠ [] →
      (registerPOST emailValid hash freshId ip b now s).1 =
        { status := 400,
          body := .errorDetails "Password does not meet security requirements"
            ((validatePasswordStrength b.password).map (fun e => e.message)) } ∧
      (registerPOST emailValid hash freshId ip b now s).2.rls =
        (checkRateLimit ip rateLimitConfigs.auth now s.rls s.fls).2.1) ∧
    (∀ u, registerSchemaErrors emailValid b = [] →
      validatePasswordStrength b.password = [] →
      findUserByEmail s.db b.email = some u →
      (registerPOST emailValid hash freshId ip b now s).1 =
        { status := 409, body := .error "Email already registered" } ∧
      (registerPOST emailValid hash freshId ip b now s).2.rls =
        updateRateLimit ip rateLimitConfigs.auth false now
          (checkRateLimit ip rateLimitConfigs.auth now s.rls s.fls).2.1) := by
  refine ⟨?_, ?_, ?_⟩
  · intro hbad
    rw [registerPOST_invalid_eq emailValid hash freshId ip b now s hgate hbad]
    exact ⟨rfl, rfl⟩
  · intro hok hweak
    rw [registerPOST_weak_eq emailValid hash freshId ip b now s hgate hok hweak]
    exact ⟨rfl, rfl⟩
  · intro u hok hstrong hdup
    rw [registerPOST_conflict_eq emailValid hash freshId ip b now s u hgate hok
      hstrong hdup]
    exact ⟨rfl, rfl⟩

/-- Witness for the amended C4: the short-name body gets its 400 with the
rate-limit store exactly the gate's check output. -/
theorem register_validation_quota_amended_witness :
    (registerPOST (fun _ => true) sampleHash "u9" "ip" badRegisterBody 0 sampleState).1 =
      { status := 400,
        body := .errorDetails "Invalid input data"
          (registerSchemaErrors (fun _ => true) badRegisterBody) } ∧
    (registerPOST (fun _ => true) sampleHash "u9" "ip" badRegisterBody 0 sampleState).2.rls =
      (checkRateLimit "ip" rateLimitConfigs.auth 0 sampleState.rls sampleState.fls).2.1 :=
  (register_validation_quota_amended (fun _ => true) sampleHash "u9" "ip"
    badRegisterBody 0 sampleState (by decide)).1 (by decide)

end AuthStarter
